import Mathlib

/-!
# Shallow embedding of the brand-safety evidence pipeline

This file embeds, in Lean, the core data model and algorithms of the
`pricingmodel` repository's brand-safety pipeline
(`client/src/brandSafety/*`), and proves or refutes the frozen claims
about them.

Conventions of the embedding:
* JavaScript `number` values are modelled as `ℚ` (the code performs only
  field arithmetic, comparisons, `Math.max`/`Math.min` and `toFixed`
  on them; `NaN` never arises on the paths the claims concern).
* TypeScript string-union types become inductive types.
* Optional / nullable fields become `Option`; the empty string stands
  for a missing string where the code itself uses falsiness (`|| ''`).
* Strings are handled through their character lists so that every
  definition is executable by the kernel.
-/

namespace BrandSafety

/-- Stance of the creator in an evidence item (`types.ts`). -/
inductive Stance
  | Offender
  | Victim
  | Unrelated
  deriving DecidableEq, Repr

/-- Risk category taxonomy (`types.ts`, `RiskCategory`). -/
inductive RiskCategory
  | harmToMinors
  | sexualMisconduct
  | violence
  | hateOrDiscrimination
  | fraudOrScam
  | misinformation
  | guidelineViolations
  | personalDrama
  | insufficient_data
  deriving DecidableEq, Repr

/-- Sentiment of an evidence item (`types.ts`, `Sentiment`). -/
inductive Sentiment
  | negative
  | neutral
  | positive
  deriving DecidableEq, Repr

/-- Discrete risk level (`types.ts`, `RiskLevel`). -/
inductive RiskLevel
  | green
  | amber
  | red
  | unknown
  deriving DecidableEq, Repr

/-- `ClassificationResult` from `types.ts`.  The TS `category` field has
type `RiskCategory | ''`; `none` models the empty string. -/
structure ClassificationResult where
  stance : Stance
  category : Option RiskCategory
  severity : ℚ
  sentiment : Sentiment
  mitigation : Bool
  summary : String
  deriving DecidableEq, Repr

/-- `BrandSafetyEvidence` from `types.ts` (fields the pipeline reads).
`recencyMonths` is optional/nullable in TS; `none` models both. -/
structure BrandSafetyEvidence where
  title : String
  snippet : String
  url : String
  classification : ClassificationResult
  recency : ℚ
  recencyMonths : Option ℚ
  riskContribution : ℚ
  deriving DecidableEq, Repr

/-! ## Configuration constants (`brandSafetyConfig.ts`) -/

/-- `SEVERITY_WEIGHT` table from `brandSafetyConfig.ts`. -/
def SEVERITY_WEIGHT : RiskCategory → ℚ
  | .harmToMinors => 5
  | .sexualMisconduct => 5
  | .violence => 4
  | .hateOrDiscrimination => 4
  | .fraudOrScam => 3
  | .misinformation => 3
  | .guidelineViolations => 2
  | .personalDrama => 1
  | .insufficient_data => 0

/-- `SENTIMENT_ADJUSTMENT` table from `brandSafetyConfig.ts`. -/
def SENTIMENT_ADJUSTMENT : Sentiment → ℚ
  | .negative => 10
  | .neutral => 0
  | .positive => -10

/-- `MITIGATION_PENALTY` from `brandSafetyConfig.ts`. -/
def MITIGATION_PENALTY : ℚ := 15

/-- `SOURCE_INDEX_WEIGHT` from `brandSafetyConfig.ts`. -/
def SOURCE_INDEX_WEIGHT : ℚ := 3 / 2

/-- `MAX_RESULTS` from `brandSafetyConfig.ts`. -/
def MAX_RESULTS : Nat := 40

/-- One entry of `RISK_BANDS` (`brandSafetyConfig.ts`). -/
structure RiskBand where
  band : RiskLevel
  min : ℚ
  max : ℚ

/-- `RISK_BANDS` from `brandSafetyConfig.ts`. -/
def RISK_BANDS : List RiskBand :=
  [⟨.green, 0, 25⟩, ⟨.amber, 26, 60⟩, ⟨.red, 61, 100⟩]

/-- `MANDATORY_RED_CATEGORIES` from `riskScoring.ts`. -/
def MANDATORY_RED_CATEGORIES : List RiskCategory :=
  [.harmToMinors, .sexualMisconduct]

/-! ## `utils.ts` -/

/-- `normaliseScore` from `utils.ts`: clamp to `[0, 100]`.
(The `Number.isNaN` guard has no counterpart over `ℚ`.) -/
def normaliseScore (score : ℚ) : ℚ := max 0 (min 100 score)

/-! ## `riskScoring.ts` -/

/-- `severityWeight` from `riskScoring.ts`: the empty category (`none`)
weighs 1, everything else is looked up in `SEVERITY_WEIGHT`. -/
def severityWeight : Option RiskCategory → ℚ
  | none => 1
  | some c => SEVERITY_WEIGHT c

/-- Whether the classification's category is one of the
mandatory-red categories (the `mitigationExempt` test and the
`mandatory` find predicate in `riskScoring.ts`; the TS `includes`
visit on the empty-string category is `false`). -/
def mandatoryCategoryB (c : ClassificationResult) : Bool :=
  match c.category with
  | some cat => MANDATORY_RED_CATEGORIES.contains cat
  | none => false

/-- `calculateRiskContribution` from `riskScoring.ts`. -/
def calculateRiskContribution (classification : ClassificationResult)
    (recencyWeight : ℚ) (sourceIndex : ℚ) : ℚ :=
  let severityScore := classification.severity * severityWeight classification.category
  let recencyScore := recencyWeight * 10
  let sentimentScore := SENTIMENT_ADJUSTMENT classification.sentiment
  let sourceScore := SOURCE_INDEX_WEIGHT * max 1 (10 - sourceIndex)
  let mitigationExempt := mandatoryCategoryB classification
  let mitigation := if classification.mitigation && !mitigationExempt then MITIGATION_PENALTY else 0
  normaliseScore (severityScore + recencyScore + sentimentScore + sourceScore - mitigation)

/-- `deriveRiskLevel` from `riskScoring.ts`: `none` models the `null`
score; the first matching band wins, and a score matching no band falls
back to `green` (`band?.band || 'green'`; band names are never empty so
the `||` only fires when `find` returns `undefined`). -/
def deriveRiskLevel (score : Option ℚ) : RiskLevel :=
  match score with
  | none => .unknown
  | some s =>
    match RISK_BANDS.find? (fun b => decide (b.min ≤ s ∧ s ≤ b.max)) with
    | some b => b.band
    | none => .green

/-- Stable insertion of one element into a list that is sorted by
`riskContribution` descending: the element goes after every element
whose contribution is `≥` its own. -/
def insertContribDesc : List BrandSafetyEvidence → BrandSafetyEvidence → List BrandSafetyEvidence
  | [], x => [x]
  | y :: ys, x =>
    if y.riskContribution < x.riskContribution then x :: y :: ys
    else y :: insertContribDesc ys x

/-- The stable descending sort
`[...evidence].sort((a, b) => b.riskContribution - a.riskContribution)`
used by `calculateCompositeScore` (ECMAScript `Array.prototype.sort`
is stable). -/
def sortContribDesc (l : List BrandSafetyEvidence) : List BrandSafetyEvidence :=
  l.foldl insertContribDesc []

/-- `calculateCompositeScore` from `riskScoring.ts`: average of the top
five contributions plus a volume bonus of two points per item capped at
twenty, clamped to `[0, 100]`. -/
def calculateCompositeScore (evidence : List BrandSafetyEvidence) : ℚ :=
  if evidence.isEmpty then 0
  else
    let sorted := sortContribDesc evidence
    let top := sorted.take 5
    let avg := (top.map (·.riskContribution)).sum / max 1 (top.length : ℚ)
    let evidenceBonus := min 20 ((sorted.length : ℚ) * 2)
    normaliseScore (avg + evidenceBonus)

/-- `Number(x.toFixed(2))`: round to two decimals, ties to the larger
value (ECMAScript `toFixed`). -/
def toFixedTwo (x : ℚ) : ℚ := (Rat.floor (x * 100 + 1 / 2) : ℚ) / 100

/-- The `evidence.filter((e) => e.classification.stance === 'Offender')`
selection used throughout `riskScoring.ts`. -/
def offenderEvidenceOf (evidence : List BrandSafetyEvidence) : List BrandSafetyEvidence :=
  evidence.filter (fun e => decide (e.classification.stance = .Offender))

/-- `computeBaseConfidence` from `riskScoring.ts`. -/
def computeBaseConfidence (evidence : List BrandSafetyEvidence) : ℚ :=
  if evidence.isEmpty then 1 / 10
  else
    let offenderEvidence := offenderEvidenceOf evidence
    let severityAvg :=
      (offenderEvidence.map (·.classification.severity)).sum /
        max 1 (offenderEvidence.length : ℚ)
    let density := min 1 ((evidence.length : ℚ) / 10)
    toFixedTwo (2 / 5 * density + 3 / 5 * (severityAvg / 5))

/-- `Math.max(...)` over a nonempty list of scores (empty list gives 0,
matching the explicit empty guard in `computeHighSeverityScore`). -/
def maxOfScores : List ℚ → ℚ
  | [] => 0
  | s :: rest => rest.foldl max s

/-- `computeHighSeverityScore` from `riskScoring.ts`. -/
def computeHighSeverityScore (evidence : List BrandSafetyEvidence) : ℚ :=
  maxOfScores ((offenderEvidenceOf evidence).map
    (fun e => e.classification.severity * severityWeight e.classification.category * 5))

/-- The `highSeverity` selection in `evaluateRiskOutcome`: Offender
items of severity at least 4. -/
def highSeverityOf (evidence : List BrandSafetyEvidence) : List BrandSafetyEvidence :=
  (offenderEvidenceOf evidence).filter (fun e => decide (4 ≤ e.classification.severity))

/-- The `highSeverity.find((item) => MANDATORY_RED_CATEGORIES.includes(...))`
step of `evaluateRiskOutcome`. -/
def mandatoryFind (evidence : List BrandSafetyEvidence) : Option BrandSafetyEvidence :=
  (highSeverityOf evidence).find? (fun e => mandatoryCategoryB e.classification)

/-- `hasRecentHighSeverity` from `riskScoring.ts`.  The
`detectRecencyMonths` helper reads the current wall-clock date, so it is
abstracted as the parameter `detectMonths` (returning `none` models its
`null` result); `item.recencyMonths` takes precedence when it is a
number. -/
def hasRecentHighSeverity (detectMonths : String → Option ℚ)
    (evidence : List BrandSafetyEvidence) : Bool :=
  evidence.any fun item =>
    if item.classification.severity < 4 ∨ item.classification.stance ≠ .Offender then false
    else
      match item.recencyMonths with
      | some m => decide (m ≤ 24)
      | none =>
        match detectMonths item.snippet with
        | some m => decide (m ≤ 24)
        | none => false

/-- The record returned by `evaluateRiskOutcome`. -/
structure RiskEvaluation where
  finalScore : ℚ
  riskLevel : RiskLevel
  confidence : ℚ
  deriving DecidableEq, Repr

/-- `evaluateRiskOutcome` from `riskScoring.ts`, parameterised by the
time-dependent `detectRecencyMonths` helper.  The source's
`weightedCompositeScore` is the composite score unchanged, and its final
branch recomputes `finalScore`/`riskLevel` with identical values. -/
def evaluateRiskOutcome (detectMonths : String → Option ℚ)
    (evidence : List BrandSafetyEvidence) : RiskEvaluation :=
  if evidence.isEmpty then ⟨0, .unknown, 1 / 10⟩
  else
    let highSeverity := highSeverityOf evidence
    let compositeScore := calculateCompositeScore evidence
    let highSeverityScore := computeHighSeverityScore highSeverity
    let finalScore := max highSeverityScore compositeScore
    let confidence := computeBaseConfidence evidence
    match mandatoryFind evidence with
    | some mandatory =>
      ⟨max finalScore (min 100 (95 + (mandatory.classification.severity - 4) * 5)),
        .red, max confidence (9 / 10)⟩
    | none =>
      if 2 ≤ highSeverity.length then ⟨100, .red, 1⟩
      else if hasRecentHighSeverity detectMonths highSeverity then
        ⟨max finalScore 98, .red, max confidence (19 / 20)⟩
      else ⟨finalScore, deriveRiskLevel (some finalScore), confidence⟩

/-! ## String utilities shared by the disambiguation layer

JavaScript strings are modelled through their character lists.  The
source text is ASCII throughout the relevant code paths, so
`Char.toLower` models `String.prototype.toLowerCase` and
`Char.isWhitespace` models the characters removed by `trim`. -/

/-- `toLowerCase`. -/
def toLowerStr (s : String) : String := ⟨s.data.map Char.toLower⟩

/-- `String.prototype.trim`: strip leading and trailing whitespace. -/
def trimStr (s : String) : String :=
  ⟨((s.data.dropWhile Char.isWhitespace).reverse.dropWhile Char.isWhitespace).reverse⟩

/-- A JS regex `\w` word character: `[A-Za-z0-9_]`. -/
def isWordChar (c : Char) : Bool := c.isAlphanum || c == '_'

/-- A character kept by `tokenise`'s splitting regex `[^a-z0-9@'+-]+/i`:
letters, digits, `@`, apostrophe, `+`, `-`. -/
def isTokenChar (c : Char) : Bool :=
  c.isAlphanum || c == '@' || c == Char.ofNat 39 || c == '+' || c == '-'

/-- Is `pat` a leading segment of `l`? (character-list level) -/
def isLeadingSegCL : List Char → List Char → Bool
  | [], _ => true
  | _ :: _, [] => false
  | a :: as, b :: bs => a == b && isLeadingSegCL as bs

/-- JS `String.prototype.includes`: `needle` occurs contiguously in `hay`. -/
def isInfixOfCL (needle : List Char) : List Char → Bool
  | [] => needle.isEmpty
  | c :: rest => isLeadingSegCL needle (c :: rest) || isInfixOfCL needle rest

/-- The word-character status of position `i` of `text` (out of range
counts as non-word, as at the ends of a JS string). -/
def isWordCharAt (text : List Char) (i : Nat) : Bool :=
  match text.get? i with
  | some c => isWordChar c
  | none => false

/-- JS regex `\b` matches at position `i`: the wordness of the character
before `i` differs from the wordness of the character at `i`. -/
def boundaryAt (text : List Char) (i : Nat) : Bool :=
  (if i = 0 then false else isWordCharAt text (i - 1)) != isWordCharAt text i

/-- The literal pattern `pat` occurs at position `i` of `text`. -/
def matchesAt (pat text : List Char) (i : Nat) : Bool :=
  (text.drop i).take pat.length == pat

/-- `new RegExp('\\b' + escapeRegExp(name) + '\\b').test(text)`: the
escaped name matches somewhere in `text` with `\b` word boundaries on
both sides.  Callers pass both sides lowercased, modelling the `i`
flag. -/
def wholeWordMatch (pat text : List Char) : Bool :=
  (List.range (text.length + 1)).any fun i =>
    matchesAt pat text i && boundaryAt text i && boundaryAt text (i + pat.length)

/-- `text.split(/[^a-z0-9@'+-]+/i).map(t => t.trim()).filter(Boolean)`:
maximal runs of token characters (the `trim` is a no-op because
whitespace is never a token character; empty pieces are dropped by the
`filter(Boolean)`). -/
def tokeniseCL : List Char → List String
  | [] => []
  | c :: rest =>
    if isTokenChar c then
      match tokeniseCL rest with
      | [] => [⟨[c]⟩]
      | t :: ts =>
        match rest with
        | [] => [⟨[c]⟩]
        | c' :: _ => if isTokenChar c' then ⟨c :: t.data⟩ :: ts else ⟨[c]⟩ :: t :: ts
    else tokeniseCL rest

/-- `tokenise` from `entityDisambiguation.js`. -/
def tokenise (s : String) : List String := tokeniseCL s.data

/-- `Array.from(new Set(pool))` keeps the first occurrence of each
element in order; `seen` accumulates the elements already emitted. -/
def uniqueFirstAux (seen : List String) : List String → List String
  | [] => []
  | x :: xs =>
    if x ∈ seen then uniqueFirstAux seen xs
    else x :: uniqueFirstAux (x :: seen) xs

/-- `Array.from(new Set(l))`. -/
def uniqueFirst (l : List String) : List String := uniqueFirstAux [] l

/-! ## Levenshtein distance (`entityDisambiguation.js`)

The source fills the standard dynamic-programming matrix
`m[i][j] = min(m[i-1][j] + 1, m[i][j-1] + 1, m[i-1][j-1] + cost)` with
unit-cost insert/delete/substitute, where `m[i][j]` is the distance
between the length-`i` prefix of `a` and the length-`j` prefix of `b`.
`levFuel` is that recurrence, expressed on the (suffix) lists with a
fuel argument so that the definition is structurally recursive and
kernel-executable; `a.length + b.length` fuel always suffices because
each recursive call shrinks the combined length. -/

/-- Fuelled Levenshtein recurrence. -/
def levFuel : Nat → List Char → List Char → Nat
  | _, [], bs => bs.length
  | _, a :: as, [] => (a :: as).length
  | 0, _ :: _, _ :: _ => 0
  | fuel + 1, a :: as, b :: bs =>
    min (levFuel fuel as (b :: bs) + 1)
      (min (levFuel fuel (a :: as) bs + 1)
        (levFuel fuel as bs + if a == b then 0 else 1))

/-- Levenshtein distance on character lists. -/
def levCL (a b : List Char) : Nat := levFuel (a.length + b.length) a b

/-- `levenshtein` from `entityDisambiguation.js` (the early returns for
empty inputs agree with the matrix border values). -/
def levenshtein (a b : String) : Nat := levCL a.data b.data

/-! ## Entity data (`types.ts`, `brandSafetyEngine.ts`) -/

/-- `Creator` from `types.ts` (fields read by the pipeline). -/
structure Creator where
  id : String
  name : String
  platform : String
  channelUrl : Option String
  channelId : Option String
  handle : Option String
  deriving DecidableEq, Repr

/-- `CreatorEntityData` from `types.ts`.  The TS `realName` field is
optional; the empty string models a missing value, matching how the
code tests the field with `filter(Boolean)` / `||`. -/
structure CreatorEntityData where
  primaryName : String
  realName : String
  identifiers : List String
  deriving DecidableEq, Repr

/-- `str.replace('@', '')` — removes only the first `@`. -/
def removeFirstAtSign : List Char → List Char
  | [] => []
  | c :: cs => if c == '@' then cs else c :: removeFirstAtSign cs

/-- The stripped handle `creator.handle?.replace('@', '') || ''` used by
`buildCreatorEntityData`. -/
def strippedHandle (creator : Creator) : String :=
  match creator.handle with
  | none => ""
  | some h => ⟨removeFirstAtSign h.data⟩

/-- `buildCreatorEntityData` from `brandSafetyEngine.ts`. -/
def buildCreatorEntityData (creator : Creator) (provided : Option CreatorEntityData) :
    CreatorEntityData :=
  let handle := strippedHandle creator
  let baseIdentifiers :=
    ([creator.name, handle, creator.channelId.getD "", creator.channelUrl.getD ""]).filter
      (fun s => s ≠ "")
  let identifiers :=
    uniqueFirst ((match provided with | some p => p.identifiers | none => []) ++ baseIdentifiers)
  { primaryName :=
      match provided with
      | some p => if p.primaryName = "" then creator.name else p.primaryName
      | none => creator.name
    realName :=
      match provided with
      | some p => if p.realName = "" then creator.name else p.realName
      | none => creator.name
    identifiers :=
      uniqueFirst ((identifiers ++ [creator.name, handle]).filter (fun s => s ≠ "")) }

/-! ## `isLikelyAboutCreator` — `entityDisambiguation.js` revision -/

/-- `MISLEADING_TERMS` from `entityDisambiguation.js`. -/
def MISLEADING_TERMS_JS : List String :=
  ["alias", "alia", "aliah", "aliana", "ali-express", "aliexpress", "alis", "alii", "analysis"]

/-- `buildIdentifierSet`: pool primary name, real name and identifiers,
drop falsy entries, deduplicate keeping first occurrences. -/
def buildIdentifierSet (cd : CreatorEntityData) : List String :=
  uniqueFirst (([cd.primaryName, cd.realName] ++ cd.identifiers).filter (fun s => s ≠ ""))

/-- The identifier loop of `isLikelyAboutCreator`
(`entityDisambiguation.js`): `some b` models `return b`, `none` models
falling through to the fuzzy safety net. -/
def identLoopJS (lowerSnippet : String) (tokens : List String) (primary : String) :
    List String → Option Bool
  | [] => none
  | rawName :: rest =>
    let name := trimStr (toLowerStr rawName)
    if name = "" then identLoopJS lowerSnippet tokens primary rest
    else if wholeWordMatch name.data lowerSnippet.data then some true
    else
      match tokens.find? (fun tok => isInfixOfCL name.data tok.data) with
      | some tok =>
        some (decide (levCL tok.data (if primary = "" then name else primary).data ≤ 2))
      | none => identLoopJS lowerSnippet tokens primary rest

/-- `isLikelyAboutCreator` from `entityDisambiguation.js` (the revision
the engine imports).  The `\b`-regex test against the raw snippet under
the `i` flag is modelled by matching the lowercased name against the
lowercased snippet. -/
def isLikelyAboutCreator (snippet : String) (cd : CreatorEntityData) : Bool :=
  if trimStr snippet = "" then false
  else
    let lowerSnippet := toLowerStr snippet
    if MISLEADING_TERMS_JS.any (fun t => isInfixOfCL t.data lowerSnippet.data) then false
    else
      let identifiers := buildIdentifierSet cd
      let tokens := tokenise lowerSnippet
      let normalisedPrimary := trimStr (toLowerStr cd.primaryName)
      match identLoopJS lowerSnippet tokens normalisedPrimary identifiers with
      | some b => b
      | none =>
        if normalisedPrimary ≠ "" then
          tokens.any (fun tok => decide (levCL tok.data normalisedPrimary.data ≤ 2))
        else false

/-! ## `isLikelyAboutCreator` — revision embedded in `nlpClassifier.ts` -/

/-- `MISLEADING_TERMS` of the revised module. -/
def MISLEADING_TERMS_REV : List String := ["alias", "aliexpress", "analytical", "analysis"]

/-- `CREATOR_CONTEXT_TERMS` of the revised module. -/
def CREATOR_CONTEXT_TERMS : List String :=
  ["youtube", "youtuber", "influencer", "streamer", "twitch", "gaming", "beauty", "vlog",
    "commentary", "fashion", "lifestyle", "creator", "social media personality", "video",
    "stream"]

/-- The snippet context object accepted by the revised
`isLikelyAboutCreator`; absent fields are empty strings. -/
structure SnippetContext where
  snippet : String := ""
  title : String := ""
  url : String := ""
  metaDescription : String := ""
  richSnippet : String := ""
  deriving Repr

/-- Join nonempty strings with single spaces (`filter(Boolean).join(' ')`). -/
def joinSpace (parts : List String) : String :=
  match parts.filter (fun s => s ≠ "") with
  | [] => ""
  | p :: ps => ps.foldl (fun acc s => acc ++ " " ++ s) p

/-- The `aggregated` text of the revised `isLikelyAboutCreator`:
title, meta description, rich snippet, snippet, url — joined and
trimmed. -/
def aggregatedText (ctx : SnippetContext) : String :=
  trimStr (joinSpace [ctx.title, ctx.metaDescription, ctx.richSnippet, ctx.snippet, ctx.url])

/-- `hasContextTerm`: some creator-ecosystem term appears as a whole
word in the (lowercased) text. -/
def hasContextTerm (lowerText : String) : Bool :=
  CREATOR_CONTEXT_TERMS.any (fun t => wholeWordMatch t.data lowerText.data)

/-- `buildContextualTokenSet` of the revised module, parameterised by
`urlTokens`, which abstracts `urlToTokens` (its `new URL(...)` parsing
is environment-provided WHATWG URL parsing). -/
def buildContextualTokenSet (urlTokens : String → List String) (ctx : SnippetContext) :
    List String :=
  let combined :=
    joinSpace [ctx.title, ctx.url, ctx.metaDescription, ctx.richSnippet, ctx.snippet]
  uniqueFirst (tokenise (toLowerStr combined) ++ urlTokens (toLowerStr ctx.url))

/-- The identifier loop of the revised `isLikelyAboutCreator`: `true`
models `return true`; `false` means the loop finished without
returning. -/
def identLoopRev (lowerAggregated : String) (tokens : List String) (ctxTerm : Bool) :
    List String → Bool
  | [] => false
  | rawName :: rest =>
    let name := trimStr (toLowerStr rawName)
    if name = "" then identLoopRev lowerAggregated tokens ctxTerm rest
    else if wholeWordMatch name.data lowerAggregated.data then true
    else if tokens.any (fun t => t ∈ MISLEADING_TERMS_REV && decide (levCL t.data name.data ≤ 2))
    then identLoopRev lowerAggregated tokens ctxTerm rest
    else if tokens.any (fun t => decide (levCL t.data name.data ≤ 2)) then true
    else if ctxTerm && tokens.any (fun t => decide (levCL t.data name.data ≤ 4)) then true
    else identLoopRev lowerAggregated tokens ctxTerm rest

/-- The revised `isLikelyAboutCreator` embedded in the
`nlpClassifier.ts` source file, parameterised by the abstracted
`urlToTokens`. -/
def isLikelyAboutCreatorRev (urlTokens : String → List String) (ctx : SnippetContext)
    (cd : CreatorEntityData) : Bool :=
  let aggregated := aggregatedText ctx
  if aggregated = "" then false
  else
    let lowerCombined := toLowerStr aggregated
    let tokens := buildContextualTokenSet urlTokens ctx
    let hasMisleadingToken := tokens.any (fun t => t ∈ MISLEADING_TERMS_REV)
    let identifiers := buildIdentifierSet cd
    let normalisedPrimary := trimStr (toLowerStr cd.primaryName)
    let contextTermPresent := hasContextTerm lowerCombined
    if identLoopRev lowerCombined tokens contextTermPresent identifiers then true
    else if contextTermPresent && normalisedPrimary ≠ "" &&
        tokens.any (fun t => decide (levCL t.data normalisedPrimary.data ≤ 4)) &&
        !hasMisleadingToken then true
    else false

/-! ## `searchEngine.ts` -/

/-- URL-deduplication
`filter((item, idx, arr) => arr.findIndex((other) => other.url === item.url) === idx)`:
keep the first item carrying each URL.  `seen` holds URLs already kept. -/
def dedupByUrlAux (seen : List String) : List BrandSafetyEvidence → List BrandSafetyEvidence
  | [] => []
  | x :: xs =>
    if x.url ∈ seen then dedupByUrlAux seen xs
    else x :: dedupByUrlAux (x.url :: seen) xs

/-- Deduplicate evidence by URL, keeping first occurrences. -/
def dedupByUrl (l : List BrandSafetyEvidence) : List BrandSafetyEvidence := dedupByUrlAux [] l

/-- The outcome of one `searchOnce` query: the fulfilled result list or
the rejection's message string. -/
abbrev QueryOutcome := Except String (List BrandSafetyEvidence)

/-- All fulfilled results, concatenated in query order (batches are
processed sequentially and `Promise.allSettled` preserves order inside
a batch, so the `collected` array is the in-order concatenation). -/
def collectedOf (outcomes : List QueryOutcome) : List BrandSafetyEvidence :=
  (outcomes.filterMap (fun o => match o with | .ok l => some l | .error _ => none)).flatten

/-- All rejection messages, in query order. -/
def errorsOf (outcomes : List QueryOutcome) : List String :=
  outcomes.filterMap (fun o => match o with | .ok _ => none | .error e => some e)

/-- The thrown message: first of the deduplicated nonempty errors (or
the fallback), with the configuration hint appended. -/
def searchFailureMessage (errors : List String) : String :=
  (match uniqueFirst (errors.filter (fun e => e ≠ "")) with
    | [] => "Google search request failed"
    | e :: _ => e) ++ ". Check your Google API key and CX configuration."

/-- `performSmartSearch` from `searchEngine.ts`, as a function of the
per-query outcomes (`searchOnce` results): throw when nothing was
collected and at least one query failed, otherwise deduplicate by URL
and cap at `MAX_RESULTS`. -/
def performSmartSearch (outcomes : List QueryOutcome) : QueryOutcome :=
  if (collectedOf outcomes).isEmpty && !(errorsOf outcomes).isEmpty then
    .error (searchFailureMessage (errorsOf outcomes))
  else .ok ((dedupByUrl (collectedOf outcomes)).take MAX_RESULTS)

/-! ## `brandSafetyEngine.ts` — empty-search path -/

/-- `BrandSafetyResult` from `types.ts` (fields produced by the
engine).  `riskScore`/`finalScore` are nullable in TS, hence `Option`;
`categoriesDetected` is an association list. -/
structure BrandSafetyResult where
  creatorId : String
  creatorName : String
  creatorHandle : Option String
  riskScore : Option ℚ
  finalScore : Option ℚ
  riskLevel : RiskLevel
  summary : String
  evidence : List BrandSafetyEvidence
  lastChecked : String
  confidence : ℚ
  categoriesDetected : List (RiskCategory × Nat)
  deriving DecidableEq, Repr

/-- The result `runBrandSafetyEngine` returns when `performSmartSearch`
yields no results (`brandSafetyEngine.ts`); `now` abstracts
`new Date().toISOString()`. -/
def emptySearchBrandSafetyResult (creator : Creator) (now : String) : BrandSafetyResult :=
  { creatorId := creator.id
    creatorName := creator.name
    creatorHandle := creator.handle
    riskLevel := .unknown
    riskScore := none
    finalScore := none
    summary := "Insufficient validated data to determine risk."
    evidence := []
    lastChecked := now
    confidence := 1 / 10
    categoriesDetected := [] }

/-! ## Helper lemmas -/

theorem le_foldl_max (l : List ℚ) (a : ℚ) : a ≤ l.foldl max a := by
  induction l generalizing a with
  | nil => exact le_refl a
  | cons b t ih => exact le_trans (le_max_left a b) (ih (max a b))

theorem mem_le_foldl_max {x : ℚ} {l : List ℚ} (hx : x ∈ l) (a : ℚ) : x ≤ l.foldl max a := by
  induction l generalizing a with
  | nil => cases hx
  | cons b t ih =>
    rcases List.mem_cons.mp hx with h | h
    · subst h
      exact le_trans (le_max_right a x) (le_foldl_max t (max a x))
    · exact ih h (max a b)

theorem mem_le_maxOfScores {x : ℚ} {l : List ℚ} (hx : x ∈ l) : x ≤ maxOfScores l := by
  cases l with
  | nil => cases hx
  | cons s rest =>
    rcases List.mem_cons.mp hx with h | h
    · subst h; exact le_foldl_max rest x
    · exact mem_le_foldl_max h s

/-! ## Claims about the risk scoring engine -/

/-- The per-item contribution formula as the claim states it: the same
formula as the code but with category weight 1 (instead of 0) for the
`insufficient_data` category.  Written from the claim's words, for
comparison with `calculateRiskContribution`. -/
def claimedCategoryWeight : Option RiskCategory → ℚ
  | some .harmToMinors => 5
  | some .sexualMisconduct => 5
  | some .violence => 4
  | some .hateOrDiscrimination => 4
  | some .fraudOrScam => 3
  | some .misinformation => 3
  | some .guidelineViolations => 2
  | some .personalDrama => 1
  | some .insufficient_data => 1
  | none => 1

/-- The contribution formula written from the claim's words
(`severity × categoryWeight + recencyWeight×10 + sentimentAdjustment −
mitigationPenalty (when applicable) + sourceIndexWeight × max(1, 10 −
sourceIndex)`, clamped to `[0,100]`), with the claim's weight table. -/
def claimedRiskContribution (c : ClassificationResult) (recencyWeight sourceIndex : ℚ) : ℚ :=
  normaliseScore (c.severity * claimedCategoryWeight c.category + recencyWeight * 10 +
    SENTIMENT_ADJUSTMENT c.sentiment -
    (if c.mitigation && !mandatoryCategoryB c then MITIGATION_PENALTY else 0) +
    SOURCE_INDEX_WEIGHT * max 1 (10 - sourceIndex))

/-- The claim's category-weight table amended to match the code:
`insufficient_data` weighs 0 (`SEVERITY_WEIGHT.insufficient_data = 0`),
only the empty category weighs 1. -/
def amendedCategoryWeight : Option RiskCategory → ℚ
  | some .harmToMinors => 5
  | some .sexualMisconduct => 5
  | some .violence => 4
  | some .hateOrDiscrimination => 4
  | some .fraudOrScam => 3
  | some .misinformation => 3
  | some .guidelineViolations => 2
  | some .personalDrama => 1
  | some .insufficient_data => 0
  | none => 1

/-- The claim's contribution formula with the amended weight table. -/
def amendedRiskContribution (c : ClassificationResult) (recencyWeight sourceIndex : ℚ) : ℚ :=
  normaliseScore (c.severity * amendedCategoryWeight c.category + recencyWeight * 10 +
    SENTIMENT_ADJUSTMENT c.sentiment -
    (if c.mitigation && !mandatoryCategoryB c then MITIGATION_PENALTY else 0) +
    SOURCE_INDEX_WEIGHT * max 1 (10 - sourceIndex))

/-- Classification used to separate the claimed formula from the code:
`insufficient_data` at severity 5. -/
def c3Classification : ClassificationResult :=
  ⟨.Offender, some .insufficient_data, 5, .neutral, false, ""⟩

/-- C3 counterexample: on an `insufficient_data` classification of
severity 5 (recency weight 0, source index 10) the code contributes
3/2 — the category weighs 0 — while the claim's formula, which weighs
`insufficient_data` as 1, gives 13/2. -/
theorem calculateRiskContribution_c3_counterexample :
    calculateRiskContribution c3Classification 0 10 = 3 / 2 ∧
      claimedRiskContribution c3Classification 0 10 = 13 / 2 :=
  of_decide_eq_true (by with_unfolding_all rfl)

/-- C3 (amended): `calculateRiskContribution` equals the claim's
formula once the weight of `insufficient_data` is corrected from 1 to
0; the empty category still weighs 1 and all other weights are as the
claim states. -/
theorem calculateRiskContribution_eq_amended_formula (c : ClassificationResult)
    (recencyWeight sourceIndex : ℚ) :
    calculateRiskContribution c recencyWeight sourceIndex =
      amendedRiskContribution c recencyWeight sourceIndex := by
  unfold calculateRiskContribution amendedRiskContribution
  rcases c with ⟨st, cat, sev, sent, mit, hsum⟩
  have hw : severityWeight cat = amendedCategoryWeight cat := by
    rcases cat with _ | cat
    · rfl
    · cases cat <;> rfl
  simp only [hw]
  congr 1
  ring

/-- C6: the mitigation flag never changes the contribution for the
mandatory-red categories (harm to minors, sexual misconduct), all other
inputs held fixed. -/
theorem calculateRiskContribution_mitigation_exempt (c : ClassificationResult)
    (recencyWeight sourceIndex : ℚ)
    (h : c.category = some .harmToMinors ∨ c.category = some .sexualMisconduct) :
    calculateRiskContribution { c with mitigation := true } recencyWeight sourceIndex =
      calculateRiskContribution { c with mitigation := false } recencyWeight sourceIndex := by
  rcases h with h | h <;>
    simp [calculateRiskContribution, mandatoryCategoryB, h, MANDATORY_RED_CATEGORIES]

/-- C6 witness at a concrete classification. -/
theorem calculateRiskContribution_mitigation_exempt_witness :
    calculateRiskContribution ⟨.Offender, some .harmToMinors, 5, .negative, true, ""⟩ 1 0 =
      calculateRiskContribution ⟨.Offender, some .harmToMinors, 5, .negative, false, ""⟩ 1 0 :=
  calculateRiskContribution_mitigation_exempt
    ⟨.Offender, some .harmToMinors, 5, .negative, true, ""⟩ 1 0 (Or.inl rfl)

/-- Evidence item whose single contribution of 58.5 yields the
non-integer composite score 60.5. -/
def c10Evidence : BrandSafetyEvidence :=
  { title := "", snippet := "", url := ""
    classification := ⟨.Unrelated, none, 0, .neutral, false, ""⟩
    recency := 0, recencyMonths := none, riskContribution := 117 / 2 }

/-- C10: every score strictly between the green/amber bands or the
amber/red bands matches no configured band and falls back to green, and
such scores are reachable: a composite score of 60.5 arises from a
single item contributing 58.5 (average 58.5 plus a volume bonus of 2). -/
theorem deriveRiskLevel_gap_falls_back_green :
    (∀ s : ℚ, (25 < s ∧ s < 26) ∨ (60 < s ∧ s < 61) → deriveRiskLevel (some s) = .green) ∧
      calculateCompositeScore [c10Evidence] = 121 / 2 := by
  constructor
  · intro s hs
    have h1 : ¬((0 : ℚ) ≤ s ∧ s ≤ 25) := by
      rintro ⟨-, h⟩; rcases hs with ⟨h', -⟩ | ⟨h', -⟩ <;> linarith
    have h2 : ¬((26 : ℚ) ≤ s ∧ s ≤ 60) := by
      rintro ⟨ha, hb⟩; rcases hs with ⟨-, h'⟩ | ⟨h', -⟩ <;> linarith
    have h3 : ¬((61 : ℚ) ≤ s ∧ s ≤ 100) := by
      rintro ⟨ha, -⟩; rcases hs with ⟨-, h'⟩ | ⟨-, h'⟩ <;> linarith
    simp [deriveRiskLevel, RISK_BANDS, List.find?, h1, h2, h3]
  · exact of_decide_eq_true (by with_unfolding_all rfl)

/-- C10 witness: the theorem applied at the concrete score 60.5. -/
theorem deriveRiskLevel_gap_witness : deriveRiskLevel (some (121 / 2)) = .green :=
  deriveRiskLevel_gap_falls_back_green.1 (121 / 2)
    (Or.inr (of_decide_eq_true (by with_unfolding_all rfl)))

/-- C2 counterexample: `evaluateRiskOutcome` on the empty evidence list
returns the numeric score 0 — its TS return type is a non-nullable
`number` — not a null score, together with level unknown and confidence
0.1. -/
theorem evaluateRiskOutcome_empty_score_is_zero :
    evaluateRiskOutcome (fun _ => none) [] = ⟨0, .unknown, 1 / 10⟩ := rfl

/-- C2 (amended): on empty evidence `evaluateRiskOutcome` returns
finalScore 0 (a number, not null), level unknown and confidence 0.1,
while `runBrandSafetyEngine`'s empty-search path is the branch that
returns a null score with level unknown and confidence 0.1, without
throwing. -/
theorem empty_evidence_outcomes (detectMonths : String → Option ℚ) (creator : Creator)
    (now : String) :
    evaluateRiskOutcome detectMonths [] = ⟨0, .unknown, 1 / 10⟩ ∧
      (emptySearchBrandSafetyResult creator now).riskLevel = .unknown ∧
      (emptySearchBrandSafetyResult creator now).riskScore = none ∧
      (emptySearchBrandSafetyResult creator now).finalScore = none ∧
      (emptySearchBrandSafetyResult creator now).confidence = 1 / 10 :=
  ⟨rfl, rfl, rfl, rfl, rfl⟩

/-- C5: with at least two Offender items of severity ≥ 4 and no
high-severity Offender item in a mandatory-red category, the outcome is
forced to score 100, level red, confidence 1 — independent of every
item's recency and of the month detector. -/
theorem evaluateRiskOutcome_two_high_severity (detectMonths : String → Option ℚ)
    (evidence : List BrandSafetyEvidence)
    (h2 : 2 ≤ (highSeverityOf evidence).length)
    (hnm : ∀ e ∈ highSeverityOf evidence, mandatoryCategoryB e.classification = false) :
    evaluateRiskOutcome detectMonths evidence = ⟨100, .red, 1⟩ := by
  have hne : evidence.isEmpty = false := by
    cases evidence with
    | nil => simp [highSeverityOf, offenderEvidenceOf] at h2
    | cons a l => rfl
  have hfind : mandatoryFind evidence = none := by
    unfold mandatoryFind
    exact List.find?_eq_none.mpr (fun e he => by simp [hnm e he])
  unfold evaluateRiskOutcome
  rw [hne]
  simp only [Bool.false_eq_true, if_false, hfind]
  rw [if_pos h2]

/-- Two severity-5 violence items used as the C5 witness. -/
def c5Evidence : List BrandSafetyEvidence :=
  [{ title := "a", snippet := "old report from 1998", url := "https://a.example"
     classification := ⟨.Offender, some .violence, 5, .negative, false, ""⟩
     recency := 0, recencyMonths := some 300, riskContribution := 40 },
   { title := "b", snippet := "another old report", url := "https://b.example"
     classification := ⟨.Offender, some .violence, 5, .negative, false, ""⟩
     recency := 0, recencyMonths := none, riskContribution := 35 }]

/-- C5 witness: the theorem applied to two concrete severity-5 violence
items. -/
theorem evaluateRiskOutcome_two_high_severity_witness :
    evaluateRiskOutcome (fun _ => none) c5Evidence = ⟨100, .red, 1⟩ :=
  evaluateRiskOutcome_two_high_severity (fun _ => none) c5Evidence
    (of_decide_eq_true (by with_unfolding_all rfl))
    (of_decide_eq_true (by with_unfolding_all rfl))

/-- C1: any Offender item of severity ≥ 4 in a mandatory-red category
forces level red, a final score of at least
`min(100, 95 + (severity − 4) × 5)` for that item, and confidence at
least 0.9 — however low the composite score from the other items is. -/
theorem evaluateRiskOutcome_mandatory_red (detectMonths : String → Option ℚ)
    (evidence : List BrandSafetyEvidence) (e : BrandSafetyEvidence)
    (he : e ∈ evidence) (hst : e.classification.stance = .Offender)
    (hsev : 4 ≤ e.classification.severity)
    (hcat : e.classification.category = some .harmToMinors ∨
      e.classification.category = some .sexualMisconduct) :
    (evaluateRiskOutcome detectMonths evidence).riskLevel = .red ∧
      min 100 (95 + (e.classification.severity - 4) * 5) ≤
        (evaluateRiskOutcome detectMonths evidence).finalScore ∧
      9 / 10 ≤ (evaluateRiskOutcome detectMonths evidence).confidence := by
  have hne : evidence.isEmpty = false := by
    cases evidence with
    | nil => cases he
    | cons a l => rfl
  have heOff : e ∈ offenderEvidenceOf evidence :=
    List.mem_filter.mpr ⟨he, by simp [hst]⟩
  have heHS : e ∈ highSeverityOf evidence :=
    List.mem_filter.mpr ⟨heOff, by simp [hsev]⟩
  have hmandB : mandatoryCategoryB e.classification = true := by
    rcases hcat with h | h <;> simp [mandatoryCategoryB, h, MANDATORY_RED_CATEGORIES]
  have hsome : (mandatoryFind evidence).isSome := by
    unfold mandatoryFind
    exact List.find?_isSome.mpr ⟨e, heHS, hmandB⟩
  obtain ⟨m, hm⟩ := Option.isSome_iff_exists.mp hsome
  have hweight : severityWeight e.classification.category = 5 := by
    rcases hcat with h | h <;> rw [h] <;> rfl
  have hscoremem :
      e.classification.severity * severityWeight e.classification.category * 5 ∈
        ((offenderEvidenceOf (highSeverityOf evidence)).map
          (fun x => x.classification.severity * severityWeight x.classification.category * 5)) := by
    refine List.mem_map_of_mem _ ?_
    exact List.mem_filter.mpr ⟨heHS, by simp [hst]⟩
  have hhs : e.classification.severity * 5 * 5 ≤
      computeHighSeverityScore (highSeverityOf evidence) := by
    have := mem_le_maxOfScores hscoremem
    rwa [hweight] at this
  have hbound : min 100 (95 + (e.classification.severity - 4) * 5) ≤
      computeHighSeverityScore (highSeverityOf evidence) := by
    have h100 : (100 : ℚ) ≤ e.classification.severity * 5 * 5 := by linarith
    calc min 100 (95 + (e.classification.severity - 4) * 5) ≤ 100 := min_le_left _ _
      _ ≤ e.classification.severity * 5 * 5 := h100
      _ ≤ computeHighSeverityScore (highSeverityOf evidence) := hhs
  unfold evaluateRiskOutcome
  rw [hne]
  simp only [Bool.false_eq_true, if_false, hm]
  refine ⟨trivial, ?_, le_max_right _ _⟩
  exact le_trans hbound (le_trans (le_max_left _ _) (le_max_left _ _))

/-- Evidence list used as the C1 witness: one severity-5 harm-to-minors
item among low items. -/
def c1Evidence : List BrandSafetyEvidence :=
  [{ title := "benign", snippet := "interview", url := "https://c.example"
     classification := ⟨.Unrelated, none, 0, .neutral, false, ""⟩
     recency := 0, recencyMonths := none, riskContribution := 0 },
   { title := "report", snippet := "serious allegation", url := "https://d.example"
     classification := ⟨.Offender, some .harmToMinors, 5, .negative, false, ""⟩
     recency := 0, recencyMonths := none, riskContribution := 10 }]

/-- C1 witness: the theorem applied to a concrete severity-5
harm-to-minors Offender item. -/
theorem evaluateRiskOutcome_mandatory_red_witness :
    (evaluateRiskOutcome (fun _ => none) c1Evidence).riskLevel = .red ∧
      min 100 (95 + ((5 : ℚ) - 4) * 5) ≤
        (evaluateRiskOutcome (fun _ => none) c1Evidence).finalScore ∧
      9 / 10 ≤ (evaluateRiskOutcome (fun _ => none) c1Evidence).confidence :=
  evaluateRiskOutcome_mandatory_red (fun _ => none) c1Evidence
    { title := "report", snippet := "serious allegation", url := "https://d.example"
      classification := ⟨.Offender, some .harmToMinors, 5, .negative, false, ""⟩
      recency := 0, recencyMonths := none, riskContribution := 10 }
    (by simp [c1Evidence]) rfl (of_decide_eq_true (by with_unfolding_all rfl)) (Or.inl rfl)

/-! ## Claims about the entity profile builder -/

theorem mem_uniqueFirstAux (x : String) :
    ∀ (l seen : List String), x ∈ uniqueFirstAux seen l ↔ (x ∈ l ∧ x ∉ seen) := by
  intro l
  induction l with
  | nil => intro seen; simp [uniqueFirstAux]
  | cons y ys ih =>
    intro seen
    by_cases hy : y ∈ seen
    · rw [uniqueFirstAux, if_pos hy, ih]
      constructor
      · rintro ⟨h1, h2⟩; exact ⟨List.mem_cons_of_mem y h1, h2⟩
      · rintro ⟨h1, h2⟩
        rcases List.mem_cons.mp h1 with h | h
        · exact absurd (h ▸ hy) h2
        · exact ⟨h, h2⟩
    · rw [uniqueFirstAux, if_neg hy]
      constructor
      · intro h
        rcases List.mem_cons.mp h with h | h
        · exact ⟨h ▸ List.mem_cons_self y ys, h ▸ hy⟩
        · rcases (ih (y :: seen)).mp h with ⟨h1, h2⟩
          exact ⟨List.mem_cons_of_mem y h1,
            fun hx => h2 (List.mem_cons_of_mem y hx)⟩
      · rintro ⟨h1, h2⟩
        rcases List.mem_cons.mp h1 with h | h
        · exact List.mem_cons.mpr (Or.inl h)
        · by_cases hxy : x = y
          · exact List.mem_cons.mpr (Or.inl hxy)
          · exact List.mem_cons_of_mem y ((ih (y :: seen)).mpr
              ⟨h, fun hx => by
                rcases List.mem_cons.mp hx with h' | h'
                · exact hxy h'
                · exact h2 h'⟩)

theorem mem_uniqueFirst (x : String) (l : List String) : x ∈ uniqueFirst l ↔ x ∈ l := by
  rw [uniqueFirst, mem_uniqueFirstAux]
  simp

/-- C7 (amended): the identifier set built by `buildCreatorEntityData`
always contains the creator's (nonempty) name and the creator's
stripped nonempty handle; the profile's `primaryName` is a member
whenever the caller override supplies no primary name — but an override
`primaryName` is not itself added to the identifier set. -/
theorem buildCreatorEntityData_identifier_superset (creator : Creator)
    (provided : Option CreatorEntityData) (hname : creator.name ≠ "") :
    creator.name ∈ (buildCreatorEntityData creator provided).identifiers ∧
      (strippedHandle creator ≠ "" →
        strippedHandle creator ∈ (buildCreatorEntityData creator provided).identifiers) ∧
      ((∀ p, provided = some p → p.primaryName = "") →
        (buildCreatorEntityData creator provided).primaryName ∈
          (buildCreatorEntityData creator provided).identifiers) := by
  have hmemName : creator.name ∈ (buildCreatorEntityData creator provided).identifiers := by
    unfold buildCreatorEntityData
    rw [mem_uniqueFirst, List.mem_filter]
    exact ⟨List.mem_append_right _ (List.mem_cons_self _ _), by simpa using hname⟩
  refine ⟨hmemName, ?_, ?_⟩
  · intro hh
    unfold buildCreatorEntityData
    rw [mem_uniqueFirst, List.mem_filter]
    refine ⟨List.mem_append_right _ ?_, by simpa using hh⟩
    exact List.mem_cons_of_mem _ (List.mem_cons_self _ _)
  · intro hp
    have : (buildCreatorEntityData creator provided).primaryName = creator.name := by
      unfold buildCreatorEntityData
      cases provided with
      | none => rfl
      | some p => simp [hp p rfl]
    rw [this]
    exact hmemName

/-- Creator used in the C7 theorems. -/
def c7Creator : Creator :=
  { id := "c1", name := "Alice", platform := "YouTube"
    channelUrl := none, channelId := none, handle := some "@alice" }

/-- Caller override whose primary name is absent from its identifier
list. -/
def c7Provided : CreatorEntityData := ⟨"Bob", "", []⟩

/-- C7 counterexample: with an override whose `primaryName` ("Bob") is
not among the supplied identifiers, the built profile's primary name is
not a member of its identifier set. -/
theorem buildCreatorEntityData_primaryName_not_member :
    (buildCreatorEntityData c7Creator (some c7Provided)).primaryName = "Bob" ∧
      "Bob" ∉ (buildCreatorEntityData c7Creator (some c7Provided)).identifiers := by
  decide

/-- C7 witness: the amended theorem applied to a concrete creator with
no override. -/
theorem buildCreatorEntityData_identifier_superset_witness :
    c7Creator.name ∈ (buildCreatorEntityData c7Creator none).identifiers ∧
      strippedHandle c7Creator ∈ (buildCreatorEntityData c7Creator none).identifiers ∧
      (buildCreatorEntityData c7Creator none).primaryName ∈
        (buildCreatorEntityData c7Creator none).identifiers :=
  ⟨(buildCreatorEntityData_identifier_superset c7Creator none (by decide)).1,
    (buildCreatorEntityData_identifier_superset c7Creator none (by decide)).2.1 (by decide),
    (buildCreatorEntityData_identifier_superset c7Creator none (by decide)).2.2
      (fun p hp => by cases hp)⟩

/-! ## Claims about the search aggregation -/

theorem dedupByUrlAux_invariant :
    ∀ (l : List BrandSafetyEvidence) (seen : List String),
      (∀ x ∈ dedupByUrlAux seen l, x.url ∉ seen) ∧
        (dedupByUrlAux seen l).Pairwise (fun a b => a.url ≠ b.url) := by
  intro l
  induction l with
  | nil => intro seen; simp [dedupByUrlAux]
  | cons x xs ih =>
    intro seen
    by_cases hx : x.url ∈ seen
    · rw [dedupByUrlAux, if_pos hx]
      exact ih seen
    · rw [dedupByUrlAux, if_neg hx]
      obtain ⟨hmem, hpw⟩ := ih (x.url :: seen)
      constructor
      · intro y hy
        rcases List.mem_cons.mp hy with h | h
        · exact h ▸ hx
        · exact fun hc => hmem y h (List.mem_cons_of_mem _ hc)
      · refine List.Pairwise.cons ?_ hpw
        intro y hy hc
        exact hmem y hy (hc ▸ List.mem_cons_self _ _)

theorem dedupByUrl_pairwise (l : List BrandSafetyEvidence) :
    (dedupByUrl l).Pairwise (fun a b => a.url ≠ b.url) :=
  (dedupByUrlAux_invariant l []).2

/-- C8 (amended): `performSmartSearch` raises exactly when the
collected results are empty and at least one query failed — which can
happen even though a query succeeded, because a query can succeed with
zero items; otherwise it returns the collected results deduplicated by
URL and capped at `MAX_RESULTS` (40), so any returned list has pairwise
distinct URLs and at most 40 items. -/
theorem performSmartSearch_spec (outcomes : List QueryOutcome) :
    ((∃ msg, performSmartSearch outcomes = .error msg) ↔
      (collectedOf outcomes = [] ∧ errorsOf outcomes ≠ [])) ∧
      (¬(collectedOf outcomes = [] ∧ errorsOf outcomes ≠ []) →
        performSmartSearch outcomes =
          .ok ((dedupByUrl (collectedOf outcomes)).take MAX_RESULTS)) ∧
      (∀ l, performSmartSearch outcomes = .ok l →
        l.Pairwise (fun a b => a.url ≠ b.url) ∧ l.length ≤ MAX_RESULTS) := by
  have htake : ∀ m : List BrandSafetyEvidence,
      ((dedupByUrl m).take MAX_RESULTS).Pairwise (fun a b => a.url ≠ b.url) ∧
        ((dedupByUrl m).take MAX_RESULTS).length ≤ MAX_RESULTS := by
    intro m
    constructor
    · exact List.Pairwise.sublist (List.take_sublist _ _) (dedupByUrl_pairwise m)
    · simp [List.length_take]
  have hiff : (((collectedOf outcomes).isEmpty && !(errorsOf outcomes).isEmpty) = true) ↔
      (collectedOf outcomes = [] ∧ errorsOf outcomes ≠ []) := by
    simp [List.isEmpty_iff]
  refine ⟨⟨?_, ?_⟩, ?_, ?_⟩
  · rintro ⟨msg, hmsg⟩
    by_cases hcond : ((collectedOf outcomes).isEmpty && !(errorsOf outcomes).isEmpty) = true
    · exact hiff.mp hcond
    · rw [performSmartSearch, if_neg hcond] at hmsg
      cases hmsg
  · intro hc
    refine ⟨searchFailureMessage (errorsOf outcomes), ?_⟩
    rw [performSmartSearch, if_pos (hiff.mpr hc)]
  · intro hnc
    rw [performSmartSearch, if_neg (fun hcond => hnc (hiff.mp hcond))]
  · intro l hl
    by_cases hcond : ((collectedOf outcomes).isEmpty && !(errorsOf outcomes).isEmpty) = true
    · rw [performSmartSearch, if_pos hcond] at hl
      cases hl
    · rw [performSmartSearch, if_neg hcond] at hl
      cases hl
      exact htake _

/-- C8 counterexample: one query fulfilled with zero items and one
rejected query make the collected results empty, so
`performSmartSearch` raises even though a query succeeded. -/
theorem performSmartSearch_succeeding_query_still_raises :
    performSmartSearch [.ok [], .error "quota"] =
      .error "quota. Check your Google API key and CX configuration." := rfl

/-- Search outcomes (with one duplicate URL) used as the C8 witness. -/
def c8Outcomes : List QueryOutcome :=
  [.ok [{ title := "x", snippet := "s", url := "https://x.example"
          classification := ⟨.Unrelated, none, 0, .neutral, false, ""⟩
          recency := 0, recencyMonths := none, riskContribution := 0 },
        { title := "x again", snippet := "s2", url := "https://x.example"
          classification := ⟨.Unrelated, none, 0, .neutral, false, ""⟩
          recency := 0, recencyMonths := none, riskContribution := 0 }],
   .ok [{ title := "y", snippet := "s3", url := "https://y.example"
          classification := ⟨.Unrelated, none, 0, .neutral, false, ""⟩
          recency := 0, recencyMonths := none, riskContribution := 0 }]]

/-- C8 witness: the amended theorem applied to concrete outcomes whose
success carries a duplicated URL. -/
theorem performSmartSearch_spec_witness :
    ((dedupByUrl (collectedOf c8Outcomes)).take MAX_RESULTS).Pairwise
        (fun a b => a.url ≠ b.url) ∧
      ((dedupByUrl (collectedOf c8Outcomes)).take MAX_RESULTS).length ≤ MAX_RESULTS :=
  (performSmartSearch_spec c8Outcomes).2.2 _
    ((performSmartSearch_spec c8Outcomes).2.1
      (of_decide_eq_true (by with_unfolding_all rfl)))

/-! ## Claims about the Levenshtein distance -/

theorem levFuel_congr :
    ∀ (f g : Nat) (a b : List Char), a.length + b.length ≤ f → a.length + b.length ≤ g →
      levFuel f a b = levFuel g a b := by
  intro f
  induction f with
  | zero =>
    intro g a b hf hg
    cases a with
    | nil => simp [levFuel]
    | cons x as => simp at hf
  | succ f ih =>
    intro g a b hf hg
    cases a with
    | nil => simp [levFuel]
    | cons x as =>
      cases b with
      | nil => simp [levFuel]
      | cons y bs =>
        cases g with
        | zero => simp at hg
        | succ g =>
          simp only [levFuel]
          simp only [List.length_cons] at hf hg
          rw [ih g as (y :: bs) (by simp; omega) (by simp; omega),
            ih g (x :: as) bs (by simp; omega) (by simp; omega),
            ih g as bs (by omega) (by omega)]

theorem levFuel_symm :
    ∀ (f : Nat) (a b : List Char), a.length + b.length ≤ f →
      levFuel f a b = levFuel f b a := by
  intro f
  induction f with
  | zero =>
    intro a b h
    cases a with
    | nil => cases b with
      | nil => rfl
      | cons y bs => simp at h
    | cons x as => simp at h
  | succ f ih =>
    intro a b h
    cases a with
    | nil => cases b with
      | nil => rfl
      | cons y bs => simp [levFuel]
    | cons x as =>
      cases b with
      | nil => simp [levFuel]
      | cons y bs =>
        simp only [levFuel]
        simp only [List.length_cons] at h
        have hc : (if x == y then 0 else 1) = (if y == x then 0 else 1) := by
          by_cases hxy : x = y
          · simp [hxy]
          · simp [beq_eq_false_iff_ne.mpr hxy, beq_eq_false_iff_ne.mpr (Ne.symm hxy)]
        rw [ih as (y :: bs) (by simp; omega), ih (x :: as) bs (by simp; omega),
          ih as bs (by omega), hc]
        omega

/-- C9: the Levenshtein distance of `entityDisambiguation.js` is
symmetric. -/
theorem levenshtein_symm (a b : String) : levenshtein a b = levenshtein b a := by
  unfold levenshtein levCL
  rw [levFuel_symm _ _ _ (le_refl _)]
  exact levFuel_congr _ _ _ _ (by omega) (by omega)

/-! ## Claims about entity disambiguation -/

theorem wholeWordMatch_nil_text {pat : List Char} (h : wholeWordMatch pat [] = true) :
    pat = [] := by
  by_contra hne
  cases pat with
  | nil => exact hne rfl
  | cons c cs => simp [wholeWordMatch, matchesAt, boundaryAt, List.range] at h

/-- The identifier loop of the revised `isLikelyAboutCreator` returns
true as soon as some identifier (nonempty once lowercased and trimmed)
matches the aggregated text as a whole word: no loop branch ever
returns false, so an earlier identifier can only exit with true or
continue. -/
theorem identLoopRev_wholeword (lowerAggregated : String) (tokens : List String)
    (ctxTerm : Bool) :
    ∀ ids : List String,
      (∃ r ∈ ids, trimStr (toLowerStr r) ≠ "" ∧
        wholeWordMatch (trimStr (toLowerStr r)).data lowerAggregated.data = true) →
      identLoopRev lowerAggregated tokens ctxTerm ids = true := by
  intro ids
  induction ids with
  | nil => rintro ⟨r, hr, -⟩; cases hr
  | cons rawName rest ih =>
    rintro ⟨r, hr, hname, hww⟩
    rw [identLoopRev]
    rcases List.mem_cons.mp hr with hhead | htail
    · subst hhead
      rw [if_neg hname, if_pos hww]
    · by_cases h0 : trimStr (toLowerStr rawName) = ""
      · rw [if_pos h0]
        exact ih ⟨r, htail, hname, hww⟩
      · rw [if_neg h0]
        by_cases h1 : wholeWordMatch (trimStr (toLowerStr rawName)).data
            lowerAggregated.data = true
        · rw [if_pos h1]
        · rw [if_neg h1]
          have hrec := ih ⟨r, htail, hname, hww⟩
          by_cases h2 : (tokens.any (fun t => t ∈ MISLEADING_TERMS_REV &&
              decide (levCL t.data (trimStr (toLowerStr rawName)).data ≤ 2))) = true
          · rw [if_pos h2]; exact hrec
          · rw [if_neg h2]
            by_cases h3 : (tokens.any
                (fun t => decide (levCL t.data (trimStr (toLowerStr rawName)).data ≤ 2))) = true
            · rw [if_pos h3]
            · rw [if_neg h3]
              by_cases h4 : (ctxTerm && tokens.any
                  (fun t => decide (levCL t.data (trimStr (toLowerStr rawName)).data ≤ 4))) = true
              · rw [if_pos h4]
              · rw [if_neg h4]; exact hrec

/-- C4 (amended): in the revised `isLikelyAboutCreator` embedded in
`nlpClassifier.ts`, a whole-word identifier match on the aggregated
text always wins — the function returns true regardless of misleading
terms.  (The `entityDisambiguation.js` revision the engine imports
instead rejects first on a misleading substring; see the
counterexample.) -/
theorem isLikelyAboutCreatorRev_wholeword_wins (urlTokens : String → List String)
    (ctx : SnippetContext) (cd : CreatorEntityData) (rawName : String)
    (hmem : rawName ∈ buildIdentifierSet cd)
    (hname : trimStr (toLowerStr rawName) ≠ "")
    (hww : wholeWordMatch (trimStr (toLowerStr rawName)).data
      (toLowerStr (aggregatedText ctx)).data = true) :
    isLikelyAboutCreatorRev urlTokens ctx cd = true := by
  have hagg : aggregatedText ctx ≠ "" := by
    intro h0
    apply hname
    have : (toLowerStr (aggregatedText ctx)).data = [] := by
      rw [h0]; rfl
    have hpat : (trimStr (toLowerStr rawName)).data = [] :=
      wholeWordMatch_nil_text (this ▸ hww)
    cases hp : trimStr (toLowerStr rawName) with
    | mk data => cases hp ▸ hpat; rfl
  rw [isLikelyAboutCreatorRev]
  rw [if_neg hagg]
  rw [if_pos (identLoopRev_wholeword _ _ _ _ ⟨rawName, hmem, hname, hww⟩)]

/-- Creator profile used in the C4 theorems. -/
def c4CreatorData : CreatorEntityData := ⟨"Ali-A", "", ["Ali-A"]⟩

/-- C4 counterexample: the snippet contains the identifier "Ali-A" as a
whole-word match, yet `isLikelyAboutCreator` from
`entityDisambiguation.js` — the revision `brandSafetyEngine.ts`
imports — returns false because the lowercased snippet contains the
misleading term "analysis" as a substring, and that rejection runs
before any identifier check. -/
theorem isLikelyAboutCreator_misleading_beats_wholeword :
    wholeWordMatch (trimStr (toLowerStr "Ali-A")).data
        (toLowerStr "Ali-A analysis video").data = true ∧
      "Ali-A" ∈ buildIdentifierSet c4CreatorData ∧
      isLikelyAboutCreator "Ali-A analysis video" c4CreatorData = false := by
  decide

/-- C4 witness: the amended theorem applied to a concrete context whose
text holds both a whole-word identifier match and the misleading term
"analysis". -/
theorem isLikelyAboutCreatorRev_wholeword_wins_witness :
    isLikelyAboutCreatorRev (fun _ => []) { snippet := "Ali-A analysis video" }
      c4CreatorData = true :=
  isLikelyAboutCreatorRev_wholeword_wins (fun _ => [])
    { snippet := "Ali-A analysis video" } c4CreatorData "Ali-A" (by decide) (by decide)
    (by decide)

end BrandSafety
